import Mathlib

/-!
# Verification of the LibraryPage catalog state engine

A shallow embedding of the catalog state engine of `src/pages/LibraryPage.tsx`:
the filtered book view (`filteredApiBooks`), the filter-mode switch
(`handleFilterChange`), the pages-read input handler, the `fetchBooks`
refresh, and the Save-button transaction, together with theorems checking
the specification's claims about them.

JavaScript numbers are modelled as `Int` (all values involved are integers),
strings as `String`, and `string | null` fields as `Option String`.  Network
requests are modelled by an outcome parameter per request: `ok` (2xx),
`httpError` (request resolves with a non-2xx response) and `throwErr`
(the promise rejects, i.e. the awaited fetch throws).
-/

namespace Shelfo

/-- The `ApiBook` record of `LibraryPage.tsx`. -/
structure ApiBook where
  id : Int
  title : String
  author : String
  category : String
  isbn : String
  status : String
  pages : Int
  pagesRead : Int
  publisher : String
  coverUrl : Option String
deriving Repr, DecidableEq

/-- An entry of the external Reading-Status reference list
(`readingStatuses` prop): an id and a status label. -/
structure ReadingStatus where
  reading_status_id : String
  status : String
deriving Repr, DecidableEq

/-- The `FilterType` union: "all" | "status" | "category". -/
inductive FilterType where
  | all
  | status
  | category
deriving Repr, DecidableEq

/-- Whether the character list `sub` occurs at the start of `hay`
(character-by-character comparison). -/
def charsStartWith : List Char → List Char → Bool
  | [], _ => true
  | _ :: _, [] => false
  | a :: as, b :: bs => a == b && charsStartWith as bs

/-- Whether the character list `sub` occurs contiguously anywhere in `hay`. -/
def charsContain (hay sub : List Char) : Bool :=
  match hay with
  | [] => charsStartWith sub []
  | _ :: t => charsStartWith sub hay || charsContain t sub

/-- JavaScript `hay.includes(sub)` on strings: `sub` is a contiguous
substring of `hay`. -/
def jsIncludes (hay sub : String) : Bool :=
  charsContain hay.toList sub.toList

/-- JavaScript `s.toLowerCase()`, modelled character-wise with
`Char.toLower` (exact on the ASCII alphabet, which is all the source's
comparisons rely on). -/
def jsToLower (s : String) : String :=
  String.mk (s.toList.map Char.toLower)

/-- Case-insensitive substring: spec-side notion "q is a case-insensitive
substring of s", realised as lower-casing both sides. -/
def ciSubstr (q s : String) : Bool :=
  jsIncludes (jsToLower s) (jsToLower q)

/-- JavaScript truthiness of a `string | null` value: `null` and the empty
string are falsy, every other string is truthy. -/
def strTruthy : Option String → Bool
  | none => false
  | some s => decide (¬ (s = ""))

/-- The search predicate of `filteredApiBooks` (`matchesSearch` in the
source): the query is empty, or the lower-cased title or author contains
the lower-cased query. -/
def matchesSearch (searchQuery : String) (book : ApiBook) : Bool :=
  decide (searchQuery = "") ||
  jsIncludes (jsToLower book.title) (jsToLower searchQuery) ||
  jsIncludes (jsToLower book.author) (jsToLower searchQuery)

/-- The body of the `apiBooks.filter` callback in `filteredApiBooks`:
search predicate combined with the active filter branch.  When the status
(resp. category) branch is taken and the lookup fails, the JS expression
`matchesSearch && status && ...` is falsy, so the book is dropped. -/
def bookPasses (searchQuery : String) (activeFilter : FilterType)
    (selectedStatus selectedCategory : Option String)
    (readingStatuses : List ReadingStatus) (book : ApiBook) : Bool :=
  let ms := matchesSearch searchQuery book
  if activeFilter = FilterType.status ∧ strTruthy selectedStatus = true then
    match readingStatuses.find? (fun r => decide (selectedStatus = some r.reading_status_id)) with
    | some st => ms && decide (book.status = st.status)
    | none => false
  else if activeFilter = FilterType.category ∧ strTruthy selectedCategory = true then
    ms && decide (some book.category = selectedCategory)
  else
    ms

/-- The `filteredApiBooks` memo: empty when `apiBooks` is empty, otherwise
the filter of `bookPasses` over the catalog in order. -/
def filteredApiBooks (apiBooks : List ApiBook) (searchQuery : String)
    (activeFilter : FilterType) (selectedStatus selectedCategory : Option String)
    (readingStatuses : List ReadingStatus) : List ApiBook :=
  if apiBooks.length = 0 then []
  else apiBooks.filter
    (bookPasses searchQuery activeFilter selectedStatus selectedCategory readingStatuses)

/-- The Filter State held in component state: search text, active filter
mode, and the two selected values. -/
structure FilterState where
  searchQuery : String
  activeFilter : FilterType
  selectedStatus : Option String
  selectedCategory : Option String
deriving Repr, DecidableEq

/-- `handleFilterChange`: set the active filter and clear both selected
values. -/
def handleFilterChange (st : FilterState) (filter : FilterType) : FilterState :=
  { st with activeFilter := filter, selectedStatus := none, selectedCategory := none }

/-- `filteredApiBooks` read off a `FilterState`. -/
def filteredOfState (apiBooks : List ApiBook) (fs : FilterState)
    (readingStatuses : List ReadingStatus) : List ApiBook :=
  filteredApiBooks apiBooks fs.searchQuery fs.activeFilter fs.selectedStatus
    fs.selectedCategory readingStatuses

/-- `selectedValue` resolved through the Reading-Status reference list to a
status label (spec-side notion used by claim C9). -/
def resolveStatus (readingStatuses : List ReadingStatus) (sv : String) : Option String :=
  (readingStatuses.find? (fun r => decide (r.reading_status_id = sv))).map
    (fun r => r.status)

/-- The numeric value of a leading run of decimal digits, `none` when the
run is empty. -/
def digitsVal (cs : List Char) : Option Nat :=
  let ds := cs.takeWhile Char.isDigit
  if ds.isEmpty then none
  else some (ds.foldl (fun acc c => acc * 10 + (c.toNat - 48)) 0)

/-- JavaScript `parseInt` (radix 10) on the value strings a number input
produces: skip leading whitespace, optional sign, then a leading run of
decimal digits; `none` models `NaN` (no digits found). -/
def jsParseInt (s : String) : Option Int :=
  let cs := s.toList.dropWhile (fun c => c == ' ' || c == '\t' || c == '\n')
  match cs with
  | '-' :: rest => (digitsVal rest).map (fun n => -(n : Int))
  | '+' :: rest => (digitsVal rest).map (fun n => (n : Int))
  | rest => (digitsVal rest).map (fun n => (n : Int))

/-- The pages-read `Input` `onChange` handler:
`const value = parseInt(e.target.value) || 0; if (value <= selectedBook.pages) setPagesRead(value);`
`NaN || 0` is `0` and `0 || 0` is `0`, so the coerced value is
`(jsParseInt s).getD 0`; the draft is replaced by it exactly when it does
not exceed the book's total pages, otherwise the previous draft stays. -/
def pagesReadOnChange (inputValue : String) (selectedBookPages pagesRead : Int) : Int :=
  let value := (jsParseInt inputValue).getD 0
  if value ≤ selectedBookPages then value else pagesRead

/-- Outcome of one awaited `fetch` request: a 2xx response, a resolved
non-2xx response (JS `fetch` resolves on those), or a rejected promise
(network failure: the `await` throws). -/
inductive ReqOutcome where
  | ok
  | httpError
  | throwErr
deriving Repr, DecidableEq

/-- Outcome of the GET books request inside `fetchBooks`: rejection,
a resolved non-2xx response (`response.ok` false), or a 2xx response with
a parsed body carrying `success` and an optional `data` array (an absent
`data` field models a malformed payload; an empty array is present and
truthy in JS). -/
inductive FetchOutcome where
  | throwErr
  | httpNotOk
  | body (success : Bool) (data : Option (List ApiBook))
deriving Repr, DecidableEq

/-- The `fetchBooks` callback: on a 2xx response whose body has
`success && data`, it replaces the `apiBooks` state with `data` and
returns `data`; on every other outcome (rejection is caught inside the
function) the state is untouched and `null` is returned.
Result: (new `apiBooks` state, returned value). -/
def fetchBooks (apiBooks : List ApiBook) (out : FetchOutcome) :
    List ApiBook × Option (List ApiBook) :=
  match out with
  | FetchOutcome.throwErr => (apiBooks, none)
  | FetchOutcome.httpNotOk => (apiBooks, none)
  | FetchOutcome.body success data =>
    match success, data with
    | true, some d => (d, some d)
    | true, none => (apiBooks, none)
    | false, _ => (apiBooks, none)

/-- A request the Save-button transaction issues to the Book Store,
in order of issue. -/
inductive SaveEvent where
  | progressUpdate (bookId : Int) (pagesRead : Int)
  | addReview (bookId : Int) (rating : Int) (comment : String)
  | refreshRequest
deriving Repr, DecidableEq

/-- Component state relevant to the Edit Session: the catalog replica,
the currently selected (open) book, and the two drafts. -/
structure SessionState where
  apiBooks : List ApiBook
  selectedBook : Option ApiBook
  pagesRead : Int
  rating : Int
deriving Repr, DecidableEq

/-- The outcomes of the (up to) three requests one Save click can issue. -/
structure SaveEnv where
  progressOut : ReqOutcome
  reviewOut : ReqOutcome
  refreshOut : FetchOutcome
deriving Repr, DecidableEq

/-- The tail of the Save handler after both writes have been awaited
without throwing: `fetchBooks` is awaited, the selected book is looked up
in the returned data by id, the draft is resynchronised to its
`pagesRead` when found, and the modal is closed (`setSelectedBook(null)`),
so `selectedBook` ends `none` on every branch. -/
def afterRefresh (st : SessionState) (book : ApiBook) (refreshOut : FetchOutcome) :
    SessionState :=
  let fetched := fetchBooks st.apiBooks refreshOut
  match fetched.2 with
  | some updatedBooks =>
    match updatedBooks.find? (fun b => decide (b.id = book.id)) with
    | some updatedBook =>
      { apiBooks := fetched.1, selectedBook := none,
        pagesRead := updatedBook.pagesRead, rating := st.rating }
    | none =>
      { apiBooks := fetched.1, selectedBook := none,
        pagesRead := st.pagesRead, rating := st.rating }
  | none =>
    { apiBooks := fetched.1, selectedBook := none,
      pagesRead := st.pagesRead, rating := st.rating }

/-- The Save button `onClick` transaction.  The whole body runs in one
`try` block whose `catch` only logs, so a rejected `await fetch` for the
progress-update or the add-review aborts the remaining steps (including
`setSelectedBook(null)`) and leaves the component state unchanged; a
resolved non-2xx response is not inspected and the transaction continues.
The progress-update is issued iff the draft differs from the selected
book's `pagesRead` (`x || 0` is the identity on the integers involved);
the review is issued iff `rating > 0`.  Returns the new state and the
list of requests issued, in order. -/
def saveOnClick (st : SessionState) (env : SaveEnv) :
    SessionState × List SaveEvent :=
  match st.selectedBook with
  | none => (st, [])
  | some book =>
    let ev1 : List SaveEvent :=
      if st.pagesRead ≠ book.pagesRead then
        [SaveEvent.progressUpdate book.id st.pagesRead]
      else []
    if st.pagesRead ≠ book.pagesRead ∧ env.progressOut = ReqOutcome.throwErr then
      (st, ev1)
    else
      let ev2 : List SaveEvent :=
        ev1 ++ (if 0 < st.rating then [SaveEvent.addReview book.id st.rating ("")] else [])
      if 0 < st.rating ∧ env.reviewOut = ReqOutcome.throwErr then
        (st, ev2)
      else
        (afterRefresh st book env.refreshOut, ev2 ++ [SaveEvent.refreshRequest])

/-- The book-list item `onClick`: select the book, seed the pages-read
draft from its `pagesRead` (`|| 0` is the identity on integers) and reset
the rating draft to 0. -/
def openBookClick (st : SessionState) (apiBook : ApiBook) : SessionState :=
  { st with selectedBook := some apiBook,
            pagesRead := apiBook.pagesRead, rating := 0 }

/-- Modelled from the spec: the Book Store (an external collaborator, not
part of this repository) applies a progress-update only when the request
succeeds with 2xx; a TransportFailure (rejection or non-2xx) leaves the
remote collection unchanged. -/
def remoteApplyProgress (books : List ApiBook) (out : ReqOutcome)
    (bookId v : Int) : List ApiBook :=
  if out = ReqOutcome.ok then
    books.map (fun b => if b.id = bookId then { b with pagesRead := v } else b)
  else books

/-- Modelled from the spec: the Book Store records a review only when the
add-review request succeeds with 2xx; a TransportFailure leaves the
review log unchanged. -/
def remoteApplyReview (reviews : List (Int × Int × String)) (out : ReqOutcome)
    (bookId rating : Int) : List (Int × Int × String) :=
  if out = ReqOutcome.ok then (bookId, rating, "") :: reviews else reviews

/-- Whether a save event is a progress-update request. -/
def isProgressEvent : SaveEvent → Bool
  | SaveEvent.progressUpdate _ _ => true
  | _ => false

/-- Whether a save event is an add-review request. -/
def isReviewEvent : SaveEvent → Bool
  | SaveEvent.addReview _ _ _ => true
  | _ => false

/-- Whether a save event is the catalog refresh request. -/
def isRefreshEvent : SaveEvent → Bool
  | SaveEvent.refreshRequest => true
  | _ => false

/-- A sample book (the spec's end-to-end scenarios). -/
def book1 : ApiBook :=
  { id := 1, title := "Dune", author := "Frank Herbert", category := "SciFi",
    isbn := "", status := "Reading", pages := 400, pagesRead := 50,
    publisher := "", coverUrl := none }

/-- A second sample book. -/
def book2 : ApiBook :=
  { id := 2, title := "Foundation", author := "Isaac Asimov", category := "SciFi",
    isbn := "", status := "Finished", pages := 400, pagesRead := 400,
    publisher := "", coverUrl := none }

/-- `book1` open with edited drafts: pages-read draft 120, no rating. -/
def stOpen1 : SessionState :=
  { apiBooks := [book1, book2], selectedBook := some book1,
    pagesRead := 120, rating := 0 }

/-- `book1` open with edited drafts: pages-read draft 120 and rating 5. -/
def stOpen5 : SessionState :=
  { apiBooks := [book1, book2], selectedBook := some book1,
    pagesRead := 120, rating := 5 }

/-- Environment where the progress-update rejects (network failure) and
everything else would succeed. -/
def envProgThrow : SaveEnv :=
  { progressOut := ReqOutcome.throwErr, reviewOut := ReqOutcome.ok,
    refreshOut := FetchOutcome.body true (some [book1, book2]) }

/-- Environment where both writes resolve with non-2xx responses and the
refresh rejects. -/
def envHttpErr : SaveEnv :=
  { progressOut := ReqOutcome.httpError, reviewOut := ReqOutcome.httpError,
    refreshOut := FetchOutcome.throwErr }

/-- `book1` as the remote store holds it after a successful progress
update to 120 pages. -/
def book1u : ApiBook := { book1 with pagesRead := 120 }

/-- Environment where every request succeeds and the refresh returns the
catalog with `book1` updated to 120 pages read. -/
def envAllOk : SaveEnv :=
  { progressOut := ReqOutcome.ok, reviewOut := ReqOutcome.ok,
    refreshOut := FetchOutcome.body true (some [book1u, book2]) }

/-- A reading-status entry whose id is the empty string. -/
def rsEmptyId : ReadingStatus := { reading_status_id := "", status := "Finished" }

/-- A reading-status entry resolving id "s2" to the label "Finished". -/
def rsFin : ReadingStatus := { reading_status_id := "s2", status := "Finished" }

/-! ## Helper lemmas -/

/-- With both selected values cleared, the filter callback degenerates to
the search predicate, whatever the active filter mode is. -/
theorem bookPasses_none_selected (q : String) (m : FilterType)
    (readingStatuses : List ReadingStatus) (b : ApiBook) :
    bookPasses q m none none readingStatuses b = matchesSearch q b := by
  unfold bookPasses
  rw [if_neg, if_neg]
  · exact fun hc => absurd hc.2 (by decide)
  · exact fun hc => absurd hc.2 (by decide)

/-- The two spellings of the reading-status lookup agree: comparing the
selected value (a present option) against each id equals comparing ids
against the underlying string. -/
theorem find_shift (readingStatuses : List ReadingStatus) (s : String) :
    readingStatuses.find? (fun r => decide ((some s : Option String) = some r.reading_status_id)) =
    readingStatuses.find? (fun r => decide (r.reading_status_id = s)) := by
  induction readingStatuses with
  | nil => rfl
  | cons a t ih =>
    by_cases h : a.reading_status_id = s
    · simp [List.find?, h]
    · have h1 : decide ((some s : Option String) = some a.reading_status_id) = false := by
        simp [Ne.symm h]
      have h2 : decide (a.reading_status_id = s) = false := by simp [h]
      simp only [List.find?, h1, h2]
      exact ih

/-- The post-refresh tail of the save transaction always ends with the
modal closed. -/
theorem afterRefresh_selectedBook (st : SessionState) (book : ApiBook)
    (fo : FetchOutcome) :
    (afterRefresh st book fo).selectedBook = none := by
  unfold afterRefresh
  rcases h : (fetchBooks st.apiBooks fo).2 with _ | d
  · simp [h]
  · rcases h2 : d.find? (fun b => decide (b.id = book.id)) with _ | u <;> simp [h, h2]

/-- Save scenario: the progress-update was needed and its `await` threw.
The transaction aborts after issuing only that request, leaving the
component state untouched. -/
theorem saveOnClick_progressThrow (st : SessionState) (book : ApiBook)
    (env : SaveEnv)
    (hsel : st.selectedBook = some book)
    (hne : st.pagesRead ≠ book.pagesRead)
    (hpo : env.progressOut = ReqOutcome.throwErr) :
    saveOnClick st env = (st, [SaveEvent.progressUpdate book.id st.pagesRead]) := by
  unfold saveOnClick
  rw [hsel]
  simp [hne, hpo]

/-- Save scenario: the progress step did not throw (either skipped or its
request resolved), a review was due and its `await` threw.  The
transaction aborts after the two write requests, leaving the component
state untouched. -/
theorem saveOnClick_reviewThrow (st : SessionState) (book : ApiBook)
    (env : SaveEnv)
    (hsel : st.selectedBook = some book)
    (hok1 : st.pagesRead = book.pagesRead ∨ env.progressOut ≠ ReqOutcome.throwErr)
    (hrt : 0 < st.rating)
    (hro : env.reviewOut = ReqOutcome.throwErr) :
    saveOnClick st env =
      (st, (if st.pagesRead ≠ book.pagesRead then
              [SaveEvent.progressUpdate book.id st.pagesRead] else [])
           ++ [SaveEvent.addReview book.id st.rating ("")]) := by
  have h1 : ¬ (st.pagesRead ≠ book.pagesRead ∧ env.progressOut = ReqOutcome.throwErr) := by
    rcases hok1 with h | h
    · exact fun hc => hc.1 h
    · exact fun hc => h hc.2
  unfold saveOnClick
  rw [hsel]
  simp only [if_neg h1]
  simp [hrt, hro]

/-- Save scenario: neither awaited write threw (each was skipped or its
request resolved).  The transaction issues the due writes, then the
refresh, runs the reconciliation tail and closes the modal. -/
theorem saveOnClick_noThrow (st : SessionState) (book : ApiBook)
    (env : SaveEnv)
    (hsel : st.selectedBook = some book)
    (hok1 : st.pagesRead = book.pagesRead ∨ env.progressOut ≠ ReqOutcome.throwErr)
    (hok2 : st.rating ≤ 0 ∨ env.reviewOut ≠ ReqOutcome.throwErr) :
    saveOnClick st env =
      (afterRefresh st book env.refreshOut,
        ((if st.pagesRead ≠ book.pagesRead then
            [SaveEvent.progressUpdate book.id st.pagesRead] else [])
         ++ (if 0 < st.rating then [SaveEvent.addReview book.id st.rating ("")] else []))
        ++ [SaveEvent.refreshRequest]) := by
  have h1 : ¬ (st.pagesRead ≠ book.pagesRead ∧ env.progressOut = ReqOutcome.throwErr) := by
    rcases hok1 with h | h
    · exact fun hc => hc.1 h
    · exact fun hc => h hc.2
  have h2 : ¬ (0 < st.rating ∧ env.reviewOut = ReqOutcome.throwErr) := by
    rcases hok2 with h | h
    · exact fun hc => absurd hc.1 (by omega)
    · exact fun hc => h hc.2
  unfold saveOnClick
  rw [hsel]
  simp only [if_neg h1, if_neg h2]

/-! ## Claim theorems -/

/-- Claim C1, counterexample: opening a 400-page book with draft 50 and
typing "-5" applies the value -5 to the draft, although the claim says a
negative proposed value is never applied and the draft should have stayed
at 50. -/
theorem c1_progress_clamp_counterexample :
    pagesReadOnChange ("-5") 400 50 = -5 ∧
    ¬ pagesReadOnChange ("-5") 400 50 = 50 := by
  decide

/-- Claim C1, amended: for a book with total pages P, an edit whose input
parses to the integer v applies v to the draft exactly when v ≤ P — there
is no lower bound, so negative parsed values are applied — and otherwise
leaves the draft at its previous value; non-numeric input coerces to 0 and
is applied whenever 0 ≤ P. -/
theorem c1_progress_clamp_amended (s : String) (P old : Int) :
    (∀ v : Int, jsParseInt s = some v →
      pagesReadOnChange s P old = if v ≤ P then v else old) ∧
    (jsParseInt s = none →
      pagesReadOnChange s P old = if 0 ≤ P then 0 else old) := by
  constructor
  · intro v h
    simp [pagesReadOnChange, h]
  · intro h
    simp [pagesReadOnChange, h]

/-- Claim C1, witness: the amended theorem evaluated at input "-5", total
pages 400 and previous draft 50. -/
theorem c1_progress_clamp_witness :
    pagesReadOnChange ("-5") 400 50 = if (-5 : Int) ≤ 400 then -5 else 50 :=
  (c1_progress_clamp_amended ("-5") 400 50).1 (-5) (by decide)

/-- Claim C10: for a book with pages = 0, an edit whose input parses to a
value strictly greater than 0 is rejected (the draft keeps its previous
value), and an edit parsing to a value ≤ 0 is applied. -/
theorem c10_zero_pages_rejects_positive (s : String) (v old : Int)
    (h : jsParseInt s = some v) :
    (0 < v → pagesReadOnChange s 0 old = old) ∧
    (v ≤ 0 → pagesReadOnChange s 0 old = v) := by
  constructor
  · intro hv
    have hnot : ¬ (v ≤ (0 : Int)) := by omega
    simp [pagesReadOnChange, h, hnot]
  · intro hv
    simp [pagesReadOnChange, h, hv]

/-- Claim C10, witness: with pages = 0, typing "7" leaves the draft at -2,
while typing "-3" applies -3. -/
theorem c10_zero_pages_witness :
    pagesReadOnChange ("7") 0 (-2) = -2 ∧ pagesReadOnChange ("-3") 0 5 = -3 :=
  ⟨(c10_zero_pages_rejects_positive ("7") 7 (-2) (by decide)).1 (by decide),
   (c10_zero_pages_rejects_positive ("-3") (-3) 5 (by decide)).2 (by decide)⟩

/-- Claim C4: a book B of the catalog is in the visible list under filter
mode All (whatever the selected values and reference list are) exactly
when the query is empty, or is a case-insensitive substring of B's title,
or of B's author. -/
theorem c4_search_filter (apiBooks : List ApiBook) (B : ApiBook) (q : String)
    (selS selC : Option String) (readingStatuses : List ReadingStatus)
    (hB : B ∈ apiBooks) :
    B ∈ filteredApiBooks apiBooks q FilterType.all selS selC readingStatuses ↔
      (q = "" ∨ ciSubstr q B.title = true ∨ ciSubstr q B.author = true) := by
  have hne : ¬ (apiBooks.length = 0) := by
    intro h
    rw [List.length_eq_zero] at h
    subst h
    simp at hB
  have hcond1 : ¬ (FilterType.all = FilterType.status ∧ strTruthy selS = true) :=
    fun hc => absurd hc.1 (by decide)
  have hcond2 : ¬ (FilterType.all = FilterType.category ∧ strTruthy selC = true) :=
    fun hc => absurd hc.1 (by decide)
  rw [filteredApiBooks, if_neg hne, List.mem_filter]
  unfold bookPasses
  rw [if_neg hcond1, if_neg hcond2]
  simp [matchesSearch, ciSubstr, hB, or_assoc]

/-- Claim C4, witness: searching "dun" under mode All shows book1
("Dune"). -/
theorem c4_search_filter_witness :
    book1 ∈ filteredApiBooks [book1, book2] ("dun") FilterType.all none none [] :=
  (c4_search_filter [book1, book2] book1 ("dun") none none []
      (List.mem_cons_self book1 [book2])).mpr (Or.inr (Or.inl (by decide)))

/-- Claim C8: switching the filter mode to any mode m clears both selected
values, and the visible list computed right after the switch equals the
one computed in mode All with no selected values — the mode predicate does
not constrain it. -/
theorem c8_mode_switch_resets (st : FilterState) (m : FilterType)
    (apiBooks : List ApiBook) (readingStatuses : List ReadingStatus) :
    (handleFilterChange st m).selectedStatus = none ∧
    (handleFilterChange st m).selectedCategory = none ∧
    filteredOfState apiBooks (handleFilterChange st m) readingStatuses =
      filteredApiBooks apiBooks st.searchQuery FilterType.all none none readingStatuses := by
  refine ⟨rfl, rfl, ?_⟩
  have hfun : bookPasses st.searchQuery m none none readingStatuses =
      bookPasses st.searchQuery FilterType.all none none readingStatuses := by
    funext b
    rw [bookPasses_none_selected, bookPasses_none_selected]
  show filteredApiBooks apiBooks st.searchQuery m none none readingStatuses =
    filteredApiBooks apiBooks st.searchQuery FilterType.all none none readingStatuses
  unfold filteredApiBooks
  rw [hfun]

/-- Claim C9, counterexample: with the status mode active and the selected
value being the empty string (a present value, not none) that resolves in
the reference list to the label "Finished", book1 — whose status is
"Reading", not "Finished" — still passes the filter, because the source
guards the status branch by JS truthiness and the empty string is falsy. -/
theorem c9_by_status_counterexample :
    bookPasses ("") FilterType.status (some ("")) none [rsEmptyId] book1 = true ∧
    resolveStatus [rsEmptyId] ("") = some ("Finished") ∧
    ¬ (book1.status = "Finished") := by
  decide

/-- Claim C9, amended: for a book passing the search predicate, under mode
ByStatus with a selected value that is present and non-empty, the book
passes exactly when the selected value resolves through the reference
list to a label equal to the book's status; with a selected value that is
none or the empty string, every such book passes. -/
theorem c9_by_status_amended (q : String) (readingStatuses : List ReadingStatus)
    (b : ApiBook) (sv : Option String)
    (hq : matchesSearch q b = true) :
    (∀ s : String, sv = some s → ¬ (s = "") →
      (bookPasses q FilterType.status sv none readingStatuses b = true ↔
        ∃ label, resolveStatus readingStatuses s = some label ∧ b.status = label)) ∧
    ((sv = none ∨ sv = some ("")) →
      bookPasses q FilterType.status sv none readingStatuses b = true) := by
  constructor
  · intro s hsv hs
    subst hsv
    have hcond : FilterType.status = FilterType.status ∧ strTruthy (some s) = true :=
      ⟨rfl, by simp [strTruthy, hs]⟩
    unfold bookPasses
    rw [if_pos hcond, find_shift readingStatuses s]
    rcases hfind : readingStatuses.find? (fun r => decide (r.reading_status_id = s)) with _ | u
    · simp [resolveStatus, hfind]
    · simp [resolveStatus, hfind, hq]
  · intro hsv
    have hcond1 : ¬ (FilterType.status = FilterType.status ∧ strTruthy sv = true) := by
      rcases hsv with h | h <;> subst h <;> exact fun hc => absurd hc.2 (by decide)
    have hcond2 : ¬ (FilterType.status = FilterType.category ∧
        strTruthy (none : Option String) = true) :=
      fun hc => absurd hc.2 (by decide)
    unfold bookPasses
    rw [if_neg hcond1, if_neg hcond2]
    exact hq

/-- Claim C9, witness: the amended theorem at selected value "s2"
resolving to "Finished", on book2 whose status is "Finished": the book
passes. -/
theorem c9_by_status_witness :
    bookPasses ("") FilterType.status (some ("s2")) none [rsFin] book2 = true :=
  ((c9_by_status_amended ("") [rsFin] book2 (some ("s2")) (by decide)).1
      ("s2") rfl (by decide)).mpr ⟨("Finished"), by decide, by decide⟩

/-- Claim C2, counterexample: saving with draft 120 over a book at 50
pages read while the progress-update request rejects issues exactly that
one failed request and leaves the session open (`selectedBook` still
set), although the claim says the session nevertheless transitions to
Closed. -/
theorem c2_save_failure_counterexample :
    (saveOnClick stOpen1 envProgThrow).2 = [SaveEvent.progressUpdate 1 120] ∧
    (saveOnClick stOpen1 envProgThrow).1.selectedBook = some book1 := by
  decide

/-- Claim C2, amended: a failed progress-update or add-review leaves the
remote store unchanged.  When the failed request resolves with a non-2xx
response (or is skipped), the session still proceeds through the refresh
attempt and transitions to Closed; but when an awaited write rejects at
the transport level, the save aborts and the session remains Open with
its drafts and catalog intact. -/
theorem c2_save_failure_amended (st : SessionState) (book : ApiBook)
    (env : SaveEnv)
    (hsel : st.selectedBook = some book) :
    (∀ (books : List ApiBook) (out : ReqOutcome) (bid v : Int),
      out ≠ ReqOutcome.ok → remoteApplyProgress books out bid v = books) ∧
    (∀ (reviews : List (Int × Int × String)) (out : ReqOutcome) (bid r : Int),
      out ≠ ReqOutcome.ok → remoteApplyReview reviews out bid r = reviews) ∧
    ((st.pagesRead = book.pagesRead ∨ env.progressOut ≠ ReqOutcome.throwErr) →
      (st.rating ≤ 0 ∨ env.reviewOut ≠ ReqOutcome.throwErr) →
      (saveOnClick st env).1.selectedBook = none) ∧
    (st.pagesRead ≠ book.pagesRead → env.progressOut = ReqOutcome.throwErr →
      (saveOnClick st env).1 = st) ∧
    ((st.pagesRead = book.pagesRead ∨ env.progressOut ≠ ReqOutcome.throwErr) →
      0 < st.rating → env.reviewOut = ReqOutcome.throwErr →
      (saveOnClick st env).1 = st) := by
  refine ⟨?_, ?_, ?_, ?_, ?_⟩
  · intro books out bid v h
    simp [remoteApplyProgress, h]
  · intro reviews out bid r h
    simp [remoteApplyReview, h]
  · intro h1 h2
    rw [saveOnClick_noThrow st book env hsel h1 h2]
    exact afterRefresh_selectedBook st book env.refreshOut
  · intro h1 h2
    rw [saveOnClick_progressThrow st book env hsel h1 h2]
  · intro h1 h2 h3
    rw [saveOnClick_reviewThrow st book env hsel h1 h2 h3]

/-- Claim C2, witness: both writes come back non-2xx and the refresh
rejects; the session still closes. -/
theorem c2_save_failure_witness :
    (saveOnClick stOpen1 envHttpErr).1.selectedBook = none :=
  (c2_save_failure_amended stOpen1 book1 envHttpErr rfl).2.2.1
    (Or.inr (by decide)) (Or.inl (by decide))

/-- Claim C3: on a refresh attempt whose GET books request rejects, is
non-2xx, has success=false, or is missing data, `fetchBooks` leaves the
catalog unchanged and returns null; and a save that reaches such a failing
refresh still closes the session and keeps the previous catalog. -/
theorem c3_refresh_failure (apiBooks : List ApiBook) (out : FetchOutcome)
    (hfail : ∀ d : List ApiBook, out ≠ FetchOutcome.body true (some d)) :
    fetchBooks apiBooks out = (apiBooks, none) ∧
    (∀ (st : SessionState) (book : ApiBook) (env : SaveEnv),
      st.selectedBook = some book → env.refreshOut = out →
      (st.pagesRead = book.pagesRead ∨ env.progressOut ≠ ReqOutcome.throwErr) →
      (st.rating ≤ 0 ∨ env.reviewOut ≠ ReqOutcome.throwErr) →
      (saveOnClick st env).1.selectedBook = none ∧
      (saveOnClick st env).1.apiBooks = st.apiBooks) := by
  have hfetch : ∀ bs : List ApiBook, fetchBooks bs out = (bs, none) := by
    intro bs
    cases out with
    | throwErr => rfl
    | httpNotOk => rfl
    | body success data =>
      cases success with
      | false => rfl
      | true =>
        cases data with
        | none => rfl
        | some d => exact absurd rfl (hfail d)
  refine ⟨hfetch apiBooks, ?_⟩
  intro st book env hsel hout h1 h2
  rw [saveOnClick_noThrow st book env hsel h1 h2]
  unfold afterRefresh
  rw [hout, hfetch st.apiBooks]
  exact ⟨rfl, rfl⟩

/-- Claim C3, witness: a rejecting refresh leaves the two-book catalog in
place, and the save with non-2xx writes and rejecting refresh ends Closed
with the catalog retained. -/
theorem c3_refresh_failure_witness :
    fetchBooks [book1, book2] FetchOutcome.throwErr = ([book1, book2], none) ∧
    (saveOnClick stOpen1 envHttpErr).1.selectedBook = none ∧
    (saveOnClick stOpen1 envHttpErr).1.apiBooks = stOpen1.apiBooks := by
  have h := c3_refresh_failure [book1, book2] FetchOutcome.throwErr
    (fun d hd => FetchOutcome.noConfusion hd)
  have h2 := h.2 stOpen1 book1 envHttpErr rfl rfl (Or.inr (by decide)) (Or.inl (by decide))
  exact ⟨h.1, h2.1, h2.2⟩

/-- Claim C5, counterexample: a save with rating draft 5 whose
progress-update rejects issues no add-review request at all, although the
claim says a save with rating in [1,5] always issues exactly one. -/
theorem c5_rating_suppression_counterexample :
    stOpen5.rating = 5 ∧
    (saveOnClick stOpen5 envProgThrow).2.filter isReviewEvent = [] := by
  decide

/-- Claim C5, amended: a save with rating draft 0 never issues an
add-review request; a save with rating draft in [1,5] whose
progress-update step did not reject (it was skipped or its request
resolved) issues exactly one, carrying the rating and an empty comment. -/
theorem c5_rating_suppression_amended (st : SessionState) (book : ApiBook)
    (env : SaveEnv)
    (hsel : st.selectedBook = some book) :
    (st.rating = 0 → (saveOnClick st env).2.filter isReviewEvent = []) ∧
    (1 ≤ st.rating → st.rating ≤ 5 →
      (st.pagesRead = book.pagesRead ∨ env.progressOut ≠ ReqOutcome.throwErr) →
      (saveOnClick st env).2.filter isReviewEvent =
        [SaveEvent.addReview book.id st.rating ("")]) := by
  constructor
  · intro h0
    by_cases hc : st.pagesRead ≠ book.pagesRead ∧ env.progressOut = ReqOutcome.throwErr
    · rw [saveOnClick_progressThrow st book env hsel hc.1 hc.2]
      simp [isReviewEvent]
    · have hok1 : st.pagesRead = book.pagesRead ∨ env.progressOut ≠ ReqOutcome.throwErr :=
        (not_and_or.mp hc).imp not_not.mp id
      rw [saveOnClick_noThrow st book env hsel hok1 (Or.inl (by omega))]
      have hrt : ¬ ((0 : Int) < st.rating) := by omega
      by_cases hpr : st.pagesRead = book.pagesRead <;>
        simp [hpr, hrt, isReviewEvent]
  · intro hlo hhi hok1
    have hrt : (0 : Int) < st.rating := by omega
    by_cases hro : env.reviewOut = ReqOutcome.throwErr
    · rw [saveOnClick_reviewThrow st book env hsel hok1 hrt hro]
      by_cases hpr : st.pagesRead = book.pagesRead <;>
        simp [hpr, isReviewEvent, isProgressEvent]
    · rw [saveOnClick_noThrow st book env hsel hok1 (Or.inr hro)]
      by_cases hpr : st.pagesRead = book.pagesRead <;>
        simp [hpr, hrt, isReviewEvent]

/-- Claim C5, witness: with every request succeeding, a save with rating
draft 5 issues exactly one add-review request carrying rating 5 and empty
comment. -/
theorem c5_rating_suppression_witness :
    (saveOnClick stOpen5 envAllOk).2.filter isReviewEvent =
      [SaveEvent.addReview 1 5 ("")] := by
  have h := (c5_rating_suppression_amended stOpen5 book1 envAllOk rfl).2
    (by decide) (by decide) (Or.inr (by decide))
  exact h

/-- Claim C6: a save issues a progress-update request, carrying the
pages-read draft, exactly when the draft differs from the selected book's
`pagesRead` as stored at open time; and no progress-update request occurs
at or after the refresh request in the issue order. -/
theorem c6_progress_request (st : SessionState) (book : ApiBook) (env : SaveEnv)
    (hsel : st.selectedBook = some book) :
    ((saveOnClick st env).2.filter isProgressEvent =
      if st.pagesRead = book.pagesRead then []
      else [SaveEvent.progressUpdate book.id st.pagesRead]) ∧
    (((saveOnClick st env).2.dropWhile (fun e => !isRefreshEvent e)).filter
        isProgressEvent = []) := by
  by_cases hpr : st.pagesRead = book.pagesRead
  · by_cases hrv : 0 < st.rating ∧ env.reviewOut = ReqOutcome.throwErr
    · rw [saveOnClick_reviewThrow st book env hsel (Or.inl hpr) hrv.1 hrv.2]
      simp [hpr, isProgressEvent, isRefreshEvent, List.dropWhile]
    · have hok2 : st.rating ≤ 0 ∨ env.reviewOut ≠ ReqOutcome.throwErr := by
        rcases not_and_or.mp hrv with h | h
        · exact Or.inl (by omega)
        · exact Or.inr h
      rw [saveOnClick_noThrow st book env hsel (Or.inl hpr) hok2]
      by_cases hrt : (0 : Int) < st.rating <;>
        simp [hpr, hrt, isProgressEvent, isRefreshEvent, List.dropWhile]
  · by_cases hpo : env.progressOut = ReqOutcome.throwErr
    · rw [saveOnClick_progressThrow st book env hsel hpr hpo]
      simp [hpr, isProgressEvent, isRefreshEvent, List.dropWhile]
    · by_cases hrv : 0 < st.rating ∧ env.reviewOut = ReqOutcome.throwErr
      · rw [saveOnClick_reviewThrow st book env hsel (Or.inr hpo) hrv.1 hrv.2]
        simp [hpr, isProgressEvent, isRefreshEvent, List.dropWhile]
      · have hok2 : st.rating ≤ 0 ∨ env.reviewOut ≠ ReqOutcome.throwErr := by
          rcases not_and_or.mp hrv with h | h
          · exact Or.inl (by omega)
          · exact Or.inr h
        rw [saveOnClick_noThrow st book env hsel (Or.inr hpo) hok2]
        by_cases hrt : (0 : Int) < st.rating <;>
          simp [hpr, hrt, isProgressEvent, isRefreshEvent, List.dropWhile]

/-- Claim C6, witness: the all-success save of draft 120 over stored 50
issues exactly one progress-update request carrying 120. -/
theorem c6_progress_request_witness :
    (saveOnClick stOpen1 envAllOk).2.filter isProgressEvent =
      [SaveEvent.progressUpdate 1 120] := by
  have h := (c6_progress_request stOpen1 book1 envAllOk rfl).1
  rw [h]
  decide

/-- Claim C7: when a save reaches the refresh and the refresh succeeds
with data d, then if d contains a book with the open book's id (first
match), the pages-read draft is resynchronised to that book's `pagesRead`
and the session closes; if no such book is in d, the session still closes
and the draft keeps its saved value. -/
theorem c7_reconciliation (st : SessionState) (book : ApiBook) (env : SaveEnv)
    (d : List ApiBook)
    (hsel : st.selectedBook = some book)
    (hout : env.refreshOut = FetchOutcome.body true (some d))
    (hok1 : st.pagesRead = book.pagesRead ∨ env.progressOut ≠ ReqOutcome.throwErr)
    (hok2 : st.rating ≤ 0 ∨ env.reviewOut ≠ ReqOutcome.throwErr) :
    (∀ u, d.find? (fun b => decide (b.id = book.id)) = some u →
      (saveOnClick st env).1.pagesRead = u.pagesRead ∧
      (saveOnClick st env).1.selectedBook = none) ∧
    (d.find? (fun b => decide (b.id = book.id)) = none →
      (saveOnClick st env).1.selectedBook = none ∧
      (saveOnClick st env).1.pagesRead = st.pagesRead) := by
  rw [saveOnClick_noThrow st book env hsel hok1 hok2]
  unfold afterRefresh
  rw [hout]
  constructor
  · intro u hu
    simp [fetchBooks, hu]
  · intro hu
    simp [fetchBooks, hu]

/-- Claim C7, witness: the all-success save refreshes to a catalog where
book 1 has 120 pages read; the draft resynchronises to 120 and the
session closes. -/
theorem c7_reconciliation_witness :
    (saveOnClick stOpen1 envAllOk).1.pagesRead = book1u.pagesRead ∧
    (saveOnClick stOpen1 envAllOk).1.selectedBook = none :=
  (c7_reconciliation stOpen1 book1 envAllOk [book1u, book2] rfl rfl
      (Or.inr (by decide)) (Or.inl (by decide))).1 book1u (by decide)

end Shelfo
